import Mathlib

/-!
Verification of the custom-metrics engine of the two RAG evaluation
scripts (enhanced-rag-evaluation.py and ragas-evaluation.py).

Python floats are modelled as rationals (`ℚ`): every arithmetic
operation the scripts perform on scores (division, `min`, `max`,
comparison) is exact on the values involved.  Python strings are
modelled as Lean `String`s, lowercasing as lowercasing each
character, argumentless `split` as splitting on whitespace and
dropping the empty pieces, and a `set` of words as the deduplicated
list of words (cardinalities and intersections agree).  A Python
expression that can raise `ZeroDivisionError` is modelled with
`Option`: `none` is the raised exception.
-/

set_option linter.unusedVariables false

/-- Split a character list at every separator character, keeping the
(possibly empty) pieces between separators. -/
def splitChars (p : Char → Bool) : List Char → List (List Char)
  | [] => [[]]
  | c :: cs =>
    if p c then [] :: splitChars p cs
    else
      match splitChars p cs with
      | [] => [[c]]
      | w :: ws => (c :: w) :: ws

/-- Python lowercasing of a string: lowercase every character. -/
def strLower (s : String) : String :=
  String.mk (s.data.map Char.toLower)

/-- Python argumentless `split`: split on whitespace, dropping empty
pieces. -/
def pySplit (s : String) : List String :=
  ((splitChars Char.isWhitespace s.data).map String.mk).filter (fun w => w ≠ "")

/-- Python `set` of the words of the lowercased string, as a
deduplicated list; its length is the cardinality of the Python
set. -/
def distinctWords (s : String) : List String :=
  (pySplit (strLower s)).dedup

/-- Size of the intersection of two Python word sets: the number of
elements of the deduplicated list `a` that also occur in `b`. -/
def interCount (a b : List String) : Nat :=
  (a.filter (fun w => b.contains w)).length

/-- Python substring membership `pat in s`: `pat` occurs as a
contiguous substring of `s` (on code points). -/
def strContains (s pat : String) : Bool :=
  decide (pat.data <:+: s.data)

/-- Line 187 of enhanced-rag-evaluation.py: response_completeness is
`min(len(answer) / 200, 1.0) if answer else 0.0`. -/
def response_completeness (answer : String) : ℚ :=
  if answer ≠ "" then min ((answer.length : ℚ) / 200) 1 else 0

/-- Lines 190 to 195: when contexts and answer are both non-empty,
take the word sets of the space-joined contexts and of the answer and
divide the intersection size by the context word count, with a
ternary guard giving `0.0` when the context word set is empty;
otherwise `0.0`. -/
def context_utilization (answer : String) (contexts : List String) : ℚ :=
  if contexts ≠ [] ∧ answer ≠ "" then
    let context_words := distinctWords (String.intercalate " " contexts)
    let answer_words := distinctWords answer
    if context_words ≠ [] then
      (interCount context_words answer_words : ℚ) / (context_words.length : ℚ)
    else 0
  else 0

/-- Lines 198 to 207: the response-time curve.  When
`response_time > 0`: `1.0` on `2 <= t <= 8`, `t / 2` when `t < 2`,
`max(0.1, 8 / t)` otherwise; `0.0` when `t <= 0`. -/
def response_efficiency (response_time : ℚ) : ℚ :=
  if response_time > 0 then
    if 2 ≤ response_time ∧ response_time ≤ 8 then 1
    else if response_time < 2 then response_time / 2
    else max (1/10) (8 / response_time)
  else 0

/-- Line 210: the fixed term list `specific_terms`. -/
def specific_terms : List String :=
  ["$", "%", "minutes", "days", "years", "score", "income", "equity"]

/-- Line 211: the number of terms of `specific_terms` occurring in
the lowercased answer, divided by `len(specific_terms)`. -/
def answer_specificity (answer : String) : ℚ :=
  ((specific_terms.filter (fun term => strContains (strLower answer) term)).length : ℚ) /
    (specific_terms.length : ℚ)

/-- Lines 214 to 219: when ground_truth and answer are both
non-empty, divide the word-set intersection size by the ground-truth
word count — this division has NO guard on the ground-truth word set
being empty, so it raises `ZeroDivisionError` (`none`) when both
strings are non-empty but that word set is empty; `0.0` when either
string is empty. -/
def ground_truth_coverage (answer ground_truth : String) : Option ℚ :=
  if ground_truth ≠ "" ∧ answer ≠ "" then
    let gt_words := distinctWords ground_truth
    let answer_words := distinctWords answer
    if gt_words.length = 0 then none
    else some ((interCount gt_words answer_words : ℚ) / (gt_words.length : ℚ))
  else some 0

/-- Method calculate_custom_metrics of EnhancedRAGEvaluator (lines
182 to 221): builds the metrics dict in insertion order.  `none`
models the `ZeroDivisionError` that the ground-truth-coverage
division can raise; no other statement of the function can raise. -/
def calculate_custom_metrics (question answer ground_truth : String)
    (contexts : List String) (response_time : ℚ) : Option (List (String × ℚ)) :=
  match ground_truth_coverage answer ground_truth with
  | none => none
  | some gtc =>
    some [("response_completeness", response_completeness answer),
          ("context_utilization", context_utilization answer contexts),
          ("response_efficiency", response_efficiency response_time),
          ("answer_specificity", answer_specificity answer),
          ("ground_truth_coverage", gtc)]

/-- Method get_score_grade of EnhancedRAGEvaluator (lines 532 to
545). -/
def get_score_grade (score : ℚ) : String :=
  if score ≥ 9/10 then "A+"
  else if score ≥ 8/10 then "A"
  else if score ≥ 7/10 then "B"
  else if score ≥ 6/10 then "C"
  else if score ≥ 5/10 then "D"
  else "F"

/-- Method get_overall_grade of RAGASEvaluator (ragas-evaluation.py
lines 325 to 338). -/
def get_overall_grade (score : ℚ) : String :=
  if score ≥ 9/10 then "A+"
  else if score ≥ 8/10 then "A"
  else if score ≥ 7/10 then "B"
  else if score ≥ 6/10 then "C"
  else if score ≥ 5/10 then "D"
  else "F"

/-- An entry of the static question catalogs returned by
get_comprehensive_test_questions and get_evaluation_questions. -/
structure QA where
  question : String
  ground_truth : String
  category : String

/-- The dict returned by query_rag_pipeline.  Only the length of
source_documents is ever consumed (line 269), so that field is
modelled by its count. -/
structure QueryResult where
  answer : String
  contexts : List String
  source_documents : Nat
  response_time : ℚ

/-- One entry of detailed_results (lines 263 to 272). -/
structure DetailedResult where
  question : String
  category : String
  answer : String
  ground_truth : String
  contexts : List String
  source_count : Nat
  response_time : ℚ
  custom_metrics : List (String × ℚ)

/-- The four parallel lists of ragas_data (resp. data) that become
the evaluation Dataset. -/
structure RagasData where
  question : List String
  answer : List String
  contexts : List (List String)
  ground_truth : List String

/-- Method prepare_enhanced_dataset of EnhancedRAGEvaluator (lines
223 to 277).  The external HTTP call is the oracle
query_rag_pipeline.  An item whose response has an empty answer is
skipped (the continue at line 244); otherwise the custom metrics are
computed (an exception there aborts the whole loop, hence `Option`)
and the item is appended to both the RAGAS data and
detailed_results. -/
def prepare_enhanced_dataset (query_rag_pipeline : String → QueryResult) :
    List QA → Option (RagasData × List DetailedResult)
  | [] => some (⟨[], [], [], []⟩, [])
  | qa :: rest =>
    let rag_response := query_rag_pipeline qa.question
    if rag_response.answer = "" then prepare_enhanced_dataset query_rag_pipeline rest
    else
      match calculate_custom_metrics qa.question rag_response.answer qa.ground_truth
              rag_response.contexts rag_response.response_time,
            prepare_enhanced_dataset query_rag_pipeline rest with
      | some cm, some (d, dr) =>
        some (⟨qa.question :: d.question,
               rag_response.answer :: d.answer,
               (if rag_response.contexts ≠ [] then rag_response.contexts
                else ["No context retrieved"]) :: d.contexts,
               qa.ground_truth :: d.ground_truth⟩,
              ⟨qa.question, qa.category, rag_response.answer, qa.ground_truth,
               rag_response.contexts, rag_response.source_documents,
               rag_response.response_time, cm⟩ :: dr)
      | _, _ => none

/-- Method prepare_ragas_dataset of RAGASEvaluator
(ragas-evaluation.py lines 142 to 171): same skip of empty answers,
no custom metrics. -/
def prepare_ragas_dataset (query_rag_pipeline : String → QueryResult) :
    List QA → RagasData
  | [] => ⟨[], [], [], []⟩
  | qa :: rest =>
    let rag_response := query_rag_pipeline qa.question
    let d := prepare_ragas_dataset query_rag_pipeline rest
    if rag_response.answer = "" then d
    else
      ⟨qa.question :: d.question,
       rag_response.answer :: d.answer,
       (if rag_response.contexts ≠ [] then rag_response.contexts
        else ["No context retrieved"]) :: d.contexts,
       qa.ground_truth :: d.ground_truth⟩

/-- Line 295: the five metric names iterated by the aggregation loop
of run_enhanced_evaluation. -/
def metric_names : List String :=
  ["response_completeness", "context_utilization", "response_efficiency",
   "answer_specificity", "ground_truth_coverage"]

/-- Numpy np.mean on non-empty input (the documented numpy
semantics): the arithmetic mean. -/
def npMean (values : List ℚ) : ℚ :=
  values.sum / (values.length : ℚ)

/-- The square of numpy np.std with the default ddof=0 (the
documented numpy semantics): the population variance, the mean of
squared deviations with denominator n.  The value np.std stores is
`Real.sqrt` of this. -/
def npVar (values : List ℚ) : ℚ :=
  ((values.map (fun x => (x - npMean values)^2)).sum) / (values.length : ℚ)

/-- Line 296: the list comprehension collecting the value at key
metric_name of the custom_metrics dict of each detailed result; a
missing key raises `KeyError` (`none`). -/
def metric_values : List DetailedResult → String → Option (List ℚ)
  | [], _ => some []
  | r :: rest, metric_name =>
    match List.lookup metric_name r.custom_metrics, metric_values rest metric_name with
    | some v, some vs => some (v :: vs)
    | _, _ => none

/-- Line 297: the avg_<metric> entry of custom_results, set to
np.mean of the collected values. -/
def custom_results_avg (detailed_results : List DetailedResult) (metric_name : String) :
    Option ℚ :=
  (metric_values detailed_results metric_name).map npMean

/-- Line 298: the std_<metric> entry of custom_results, set to np.std
of the collected values, recorded here as the square of the stored
value (the stored value is `Real.sqrt` of this). -/
def custom_results_std_sq (detailed_results : List DetailedResult) (metric_name : String) :
    Option ℚ :=
  (metric_values detailed_results metric_name).map npVar

/-- Concrete pipeline oracle for exercising the skip logic: the first
question gets an empty answer, the second a real one. -/
def wQuery : String → QueryResult := fun q =>
  if q = "q one" then ⟨"", [], 0, 0⟩ else ⟨"the answer", ["ctx words"], 1, 3⟩

/-- Concrete two-question catalog for exercising the skip logic. -/
def wQuestions : List QA := [⟨"q one", "gt", "cat"⟩, ⟨"q two", "", "cat"⟩]

/-- The metrics dict computed for the second question of
`wQuestions` under `wQuery`. -/
def wMetrics : List (String × ℚ) :=
  [("response_completeness", response_completeness "the answer"),
   ("context_utilization", context_utilization "the answer" ["ctx words"]),
   ("response_efficiency", response_efficiency 3),
   ("answer_specificity", answer_specificity "the answer"),
   ("ground_truth_coverage", 0)]

/-- The single detailed result produced from `wQuestions` under
`wQuery`. -/
def wDetailed : DetailedResult :=
  ⟨"q two", "cat", "the answer", "", ["ctx words"], 1, 3, wMetrics⟩

/-- The RAGAS data produced from `wQuestions` under `wQuery`. -/
def wRagas : RagasData := ⟨["q two"], ["the answer"], [["ctx words"]], [""]⟩

/-- Three detailed results carrying one metric m with values 0.2,
0.4, 0.6, for exercising the aggregation. -/
def threeResults : List DetailedResult :=
  [⟨"q", "cat", "a", "g", [], 0, 0, [("m", 1/5)]⟩,
   ⟨"q", "cat", "a", "g", [], 0, 0, [("m", 2/5)]⟩,
   ⟨"q", "cat", "a", "g", [], 0, 0, [("m", 3/5)]⟩]

/-- The intersection count never exceeds the size of the first word
set. -/
theorem interCount_le (a b : List String) : interCount a b ≤ a.length :=
  List.length_filter_le _ _

/-- A quotient of naturals with numerator at most denominator is at
most one (also when the denominator is zero, since division by zero
is zero in `ℚ`). -/
theorem nat_div_le_one {i n : ℕ} (h : i ≤ n) : (i : ℚ) / (n : ℚ) ≤ 1 := by
  rcases Nat.eq_zero_or_pos n with hn | hn
  · subst hn; simp
  · rw [div_le_one (by exact_mod_cast hn)]
    exact_mod_cast h

/-- response_completeness always lies in [0, 1]. -/
theorem response_completeness_mem (answer : String) :
    0 ≤ response_completeness answer ∧ response_completeness answer ≤ 1 := by
  unfold response_completeness
  split
  · constructor
    · exact le_min (by positivity) zero_le_one
    · exact min_le_right _ _
  · exact ⟨le_refl 0, zero_le_one⟩

/-- context_utilization always lies in [0, 1]. -/
theorem context_utilization_mem (answer : String) (contexts : List String) :
    0 ≤ context_utilization answer contexts ∧ context_utilization answer contexts ≤ 1 := by
  unfold context_utilization
  split
  · dsimp only
    split
    · exact ⟨by positivity, nat_div_le_one (interCount_le _ _)⟩
    · exact ⟨le_refl 0, zero_le_one⟩
  · exact ⟨le_refl 0, zero_le_one⟩

/-- response_efficiency always lies in [0, 1]. -/
theorem response_efficiency_mem (t : ℚ) :
    0 ≤ response_efficiency t ∧ response_efficiency t ≤ 1 := by
  unfold response_efficiency
  split
  · split
    · exact ⟨zero_le_one, le_refl 1⟩
    · split
      · rename_i h1 h2 h3
        constructor
        · linarith
        · linarith
      · rename_i h1 h2 h3
        push_neg at h2 h3
        constructor
        · exact le_trans (by norm_num) (le_max_left _ _)
        · apply max_le (by norm_num)
          rw [div_le_one (by linarith)]
          linarith [h2 h3]
  · exact ⟨le_refl 0, zero_le_one⟩

/-- answer_specificity always lies in [0, 1]. -/
theorem answer_specificity_mem (answer : String) :
    0 ≤ answer_specificity answer ∧ answer_specificity answer ≤ 1 := by
  unfold answer_specificity
  exact ⟨by positivity, nat_div_le_one (List.length_filter_le _ _)⟩

/-- When ground_truth_coverage returns, its value lies in [0, 1]. -/
theorem ground_truth_coverage_mem (answer ground_truth : String) (v : ℚ)
    (h : ground_truth_coverage answer ground_truth = some v) : 0 ≤ v ∧ v ≤ 1 := by
  unfold ground_truth_coverage at h
  split at h
  · dsimp only at h
    split at h
    · exact absurd h (by simp)
    · rw [Option.some_inj] at h
      subst h
      exact ⟨by positivity, nat_div_le_one (interCount_le _ _)⟩
  · rw [Option.some_inj] at h
    subst h
    exact ⟨le_refl 0, zero_le_one⟩

/-- ground_truth_coverage raises exactly when both strings are
non-empty but the ground-truth word set is empty. -/
theorem ground_truth_coverage_none_iff (answer ground_truth : String) :
    ground_truth_coverage answer ground_truth = none ↔
      (ground_truth ≠ "" ∧ answer ≠ "" ∧ distinctWords ground_truth = []) := by
  unfold ground_truth_coverage
  split
  · rename_i hc
    dsimp only
    split
    · rename_i hl
      simp [hc.1, hc.2, List.length_eq_zero.mp hl]
    · rename_i hl
      have : distinctWords ground_truth ≠ [] := by
        intro he
        exact hl (by rw [he]; rfl)
      simp [this]
  · rename_i hc
    rw [not_and_or] at hc
    push_neg at hc
    simp
    intro h1 h2
    rcases hc with hc | hc
    · exact absurd h1 (by simp [hc])
    · exact absurd h2 (by simp [hc])

/-- C1 (amended): calculate_custom_metrics raises an exception on
exactly those inputs where groundTruth and answer are both non-empty
while the set of distinct lowercased whitespace tokens of groundTruth
is empty (the ground-truth-coverage division by zero); on every other
input every internal division is guarded and the function returns. -/
theorem calculate_custom_metrics_none_iff (question answer ground_truth : String)
    (contexts : List String) (response_time : ℚ) :
    calculate_custom_metrics question answer ground_truth contexts response_time = none ↔
      (ground_truth ≠ "" ∧ answer ≠ "" ∧ distinctWords ground_truth = []) := by
  unfold calculate_custom_metrics
  rw [← ground_truth_coverage_none_iff answer ground_truth]
  cases hg : ground_truth_coverage answer ground_truth <;> simp

/-- C1 (counterexample): on a whitespace-only ground truth with a
non-empty answer, calculate_custom_metrics raises a division error
(`none`) instead of returning a metric set with ground-truth coverage
0.0. -/
theorem calculate_custom_metrics_raises :
    calculate_custom_metrics "q" "an answer" " " [] 0 = none := by
  unfold calculate_custom_metrics
  rw [show ground_truth_coverage "an answer" " " = none from by decide]

/-- C2: whenever calculate_custom_metrics returns, the returned map
has exactly the five metric keys, in insertion order, and every value
lies in the closed interval [0, 1]. -/
theorem calculate_custom_metrics_keys_bounds (question answer ground_truth : String)
    (contexts : List String) (response_time : ℚ) (m : List (String × ℚ))
    (h : calculate_custom_metrics question answer ground_truth contexts response_time = some m) :
    m.map Prod.fst = metric_names ∧ ∀ p ∈ m, 0 ≤ p.2 ∧ p.2 ≤ 1 := by
  unfold calculate_custom_metrics at h
  cases hg : ground_truth_coverage answer ground_truth with
  | none =>
    rw [hg] at h
    exact absurd h (by simp)
  | some gtc =>
    rw [hg] at h
    dsimp only at h
    rw [Option.some_inj] at h
    subst h
    refine ⟨rfl, ?_⟩
    intro p hp
    simp only [List.mem_cons, List.not_mem_nil, or_false] at hp
    rcases hp with h | h | h | h | h <;> subst h
    · exact response_completeness_mem answer
    · exact context_utilization_mem answer contexts
    · exact response_efficiency_mem response_time
    · exact answer_specificity_mem answer
    · exact ground_truth_coverage_mem answer ground_truth gtc hg

/-- C2 witness: the metric set of an empty answer with empty ground
truth and no contexts has the five keys and in-range values. -/
theorem calculate_custom_metrics_keys_bounds_witness :
    ([("response_completeness", response_completeness ""),
      ("context_utilization", context_utilization "" []),
      ("response_efficiency", response_efficiency 0),
      ("answer_specificity", answer_specificity ""),
      ("ground_truth_coverage", (0 : ℚ))].map Prod.fst = metric_names) ∧
    (∀ p ∈ [("response_completeness", response_completeness ""),
            ("context_utilization", context_utilization "" []),
            ("response_efficiency", response_efficiency 0),
            ("answer_specificity", answer_specificity ""),
            ("ground_truth_coverage", (0 : ℚ))], 0 ≤ p.2 ∧ p.2 ≤ 1) :=
  calculate_custom_metrics_keys_bounds "q" "" "" [] 0 _ rfl

/-- C3 (counterexample): on the answer string from the claim,
answer_specificity is not 4/8; only the three terms dollar, minutes
and score occur. -/
theorem answer_specificity_example_ne :
    answer_specificity "$250,000 in 5 minutes with a 650 score" ≠ 4/8 := by
  unfold answer_specificity
  rw [show (specific_terms.filter (fun term =>
        strContains (strLower "$250,000 in 5 minutes with a 650 score") term)).length = 3
      from by decide,
      show specific_terms.length = 8 from rfl]
  norm_num

/-- C3 (amended): answer_specificity counts how many of the eight
fixed terms occur as substrings of the lowercased answer, divided by
8 (so it is always k/8 with k at most 8); for the answer string of
the claim the count is 3 and the result is 3/8 = 0.375. -/
theorem answer_specificity_count (answer : String) :
    answer_specificity answer =
      ((specific_terms.filter (fun term => strContains (strLower answer) term)).length : ℚ) / 8 ∧
    (specific_terms.filter (fun term => strContains (strLower answer) term)).length ≤ 8 ∧
    answer_specificity "$250,000 in 5 minutes with a 650 score" = 3/8 := by
  refine ⟨rfl, List.length_filter_le _ _, ?_⟩
  unfold answer_specificity
  rw [show (specific_terms.filter (fun term =>
        strContains (strLower "$250,000 in 5 minutes with a 650 score") term)).length = 3
      from by decide,
      show specific_terms.length = 8 from rfl]
  norm_num

/-- C4: response_efficiency is 0 for t at most 0, is 1 on [2, 8], is
t/2 on (0, 2), is max(0.1, 8/t) for t above 8, and in that last
region never drops below 0.1. -/
theorem response_efficiency_piecewise (t : ℚ) :
    (t ≤ 0 → response_efficiency t = 0) ∧
    (2 ≤ t → t ≤ 8 → response_efficiency t = 1) ∧
    (0 < t → t < 2 → response_efficiency t = t / 2) ∧
    (8 < t → response_efficiency t = max (1/10) (8 / t)) ∧
    (8 < t → 1/10 ≤ response_efficiency t) := by
  refine ⟨?_, ?_, ?_, ?_, ?_⟩
  · intro h
    unfold response_efficiency
    rw [if_neg (by linarith)]
  · intro h1 h2
    unfold response_efficiency
    rw [if_pos (by linarith), if_pos ⟨h1, h2⟩]
  · intro h1 h2
    unfold response_efficiency
    rw [if_pos h1, if_neg (by rintro ⟨a, b⟩; linarith), if_pos h2]
  · intro h
    unfold response_efficiency
    rw [if_pos (by linarith), if_neg (by rintro ⟨a, b⟩; linarith), if_neg (by linarith)]
  · intro h
    unfold response_efficiency
    rw [if_pos (by linarith), if_neg (by rintro ⟨a, b⟩; linarith), if_neg (by linarith)]
    exact le_max_left _ _

/-- C4 witness: the concrete values of the claim, plus the 0.1 floor
at t = 100. -/
theorem response_efficiency_piecewise_witness :
    response_efficiency 5 = 1 ∧ response_efficiency 1 = 1/2 ∧
    response_efficiency 16 = 1/2 ∧ response_efficiency 0 = 0 ∧
    1/10 ≤ response_efficiency 100 := by
  refine ⟨(response_efficiency_piecewise 5).2.1 (by norm_num) (by norm_num), ?_, ?_,
          (response_efficiency_piecewise 0).1 le_rfl,
          (response_efficiency_piecewise 100).2.2.2.2 (by norm_num)⟩
  · rw [(response_efficiency_piecewise 1).2.2.1 (by norm_num) (by norm_num)]
  · rw [(response_efficiency_piecewise 16).2.2.2.1 (by norm_num)]
    rw [max_eq_right (by norm_num)]
    norm_num

/-- C5: get_score_grade is total on all of `ℚ` and maps a score to
the six ordinal bands with inclusive lower thresholds 0.9, 0.8, 0.7,
0.6, 0.5, with F below 0.5 (the six cases cover every rational,
including scores below 0 and above 1). -/
theorem get_score_grade_bands (score : ℚ) :
    (9/10 ≤ score → get_score_grade score = "A+") ∧
    (8/10 ≤ score → score < 9/10 → get_score_grade score = "A") ∧
    (7/10 ≤ score → score < 8/10 → get_score_grade score = "B") ∧
    (6/10 ≤ score → score < 7/10 → get_score_grade score = "C") ∧
    (5/10 ≤ score → score < 6/10 → get_score_grade score = "D") ∧
    (score < 5/10 → get_score_grade score = "F") := by
  unfold get_score_grade
  refine ⟨?_, ?_, ?_, ?_, ?_, ?_⟩
  · intro h; rw [if_pos (by exact h)]
  · intro h1 h2
    rw [if_neg (by simpa using h2), if_pos (by exact h1)]
  · intro h1 h2
    rw [if_neg (by simp; linarith), if_neg (by simpa using h2), if_pos (by exact h1)]
  · intro h1 h2
    rw [if_neg (by simp; linarith), if_neg (by simp; linarith), if_neg (by simpa using h2),
        if_pos (by exact h1)]
  · intro h1 h2
    rw [if_neg (by simp; linarith), if_neg (by simp; linarith), if_neg (by simp; linarith),
        if_neg (by simpa using h2), if_pos (by exact h1)]
  · intro h
    rw [if_neg (by simp; linarith), if_neg (by simp; linarith), if_neg (by simp; linarith),
        if_neg (by simp; linarith), if_neg (by simpa using h)]

/-- C5 witness: the four boundary values of the claim, plus inputs
above 1 and below 0 on which the function still returns. -/
theorem get_score_grade_bands_witness :
    get_score_grade (9/10) = "A+" ∧ get_score_grade (89999/100000) = "A" ∧
    get_score_grade (1/2) = "D" ∧ get_score_grade (49999/100000) = "F" ∧
    get_score_grade 2 = "A+" ∧ get_score_grade (-1) = "F" :=
  ⟨(get_score_grade_bands (9/10)).1 (by norm_num),
   (get_score_grade_bands (89999/100000)).2.1 (by norm_num) (by norm_num),
   (get_score_grade_bands (1/2)).2.2.2.2.1 (by norm_num) (by norm_num),
   (get_score_grade_bands (49999/100000)).2.2.2.2.2 (by norm_num),
   (get_score_grade_bands 2).1 (by norm_num),
   (get_score_grade_bands (-1)).2.2.2.2.2 (by norm_num)⟩

/-- C9: response_completeness equals min(length/200, 1), is 0 on the
empty string, 1 on any string of length at least 200, and 1/2 on any
string of length exactly 100. -/
theorem response_completeness_spec (answer : String) :
    response_completeness answer = min ((answer.length : ℚ) / 200) 1 ∧
    (answer = "" → response_completeness answer = 0) ∧
    (200 ≤ answer.length → response_completeness answer = 1) ∧
    (answer.length = 100 → response_completeness answer = 1/2) := by
  have hmain : response_completeness answer = min ((answer.length : ℚ) / 200) 1 := by
    unfold response_completeness
    split
    · rfl
    · rename_i h
      push_neg at h
      subst h
      norm_num
  refine ⟨hmain, ?_, ?_, ?_⟩
  · intro h
    subst h
    rw [hmain]
    norm_num
  · intro h
    rw [hmain, min_eq_right]
    rw [le_div_iff₀ (by norm_num)]
    exact_mod_cast by linarith
  · intro h
    rw [hmain, h]
    norm_num

/-- C9 witness: the empty string, a string of 200 characters, and a
string of 100 characters. -/
theorem response_completeness_spec_witness :
    response_completeness "" = 0 ∧
    response_completeness (String.mk (List.replicate 200 'x')) = 1 ∧
    response_completeness (String.mk (List.replicate 100 'x')) = 1/2 :=
  ⟨(response_completeness_spec "").2.1 rfl,
   (response_completeness_spec _).2.2.1
     (by show 200 ≤ (List.replicate 200 'x').length
         exact le_of_eq (List.length_replicate 200 'x').symm),
   (response_completeness_spec _).2.2.2
     (by show (List.replicate 100 'x').length = 100
         exact List.length_replicate 100 'x')⟩

/-- C8: context_utilization equals shared distinct words over
distinct context words, and is 0 when the contexts list is empty,
when the answer is empty, or when the context word set is empty, all
without a division error. -/
theorem context_utilization_guarded (answer : String) (contexts : List String) :
    (contexts ≠ [] → answer ≠ "" →
      distinctWords (String.intercalate " " contexts) ≠ [] →
      context_utilization answer contexts =
        (interCount (distinctWords (String.intercalate " " contexts)) (distinctWords answer) : ℚ) /
          ((distinctWords (String.intercalate " " contexts)).length : ℚ)) ∧
    (contexts = [] → context_utilization answer contexts = 0) ∧
    (answer = "" → context_utilization answer contexts = 0) ∧
    (distinctWords (String.intercalate " " contexts) = [] →
      context_utilization answer contexts = 0) := by
  refine ⟨?_, ?_, ?_, ?_⟩
  · intro h1 h2 h3
    unfold context_utilization
    rw [if_pos ⟨h1, h2⟩]
    dsimp only
    rw [if_pos h3]
  · intro h
    unfold context_utilization
    rw [if_neg (by tauto)]
  · intro h
    unfold context_utilization
    rw [if_neg (by tauto)]
  · intro h
    unfold context_utilization
    by_cases hc : contexts ≠ [] ∧ answer ≠ ""
    · rw [if_pos hc]
      dsimp only
      rw [if_neg (fun hne => hne h)]
    · rw [if_neg hc]

/-- C8 witness: a real overlap giving 1/2, and the three zero
cases including a whitespace-only context list. -/
theorem context_utilization_guarded_witness :
    context_utilization "a c" ["a b"] = 1/2 ∧
    context_utilization "a c" [] = 0 ∧
    context_utilization "" ["a b"] = 0 ∧
    context_utilization "a c" [" "] = 0 := by
  refine ⟨?_, (context_utilization_guarded "a c" []).2.1 rfl,
          (context_utilization_guarded "" ["a b"]).2.2.1 rfl,
          (context_utilization_guarded "a c" [" "]).2.2.2 (by decide)⟩
  rw [(context_utilization_guarded "a c" ["a b"]).1 (by decide) (by decide) (by decide)]
  rw [show interCount (distinctWords (String.intercalate " " ["a b"])) (distinctWords "a c") = 1
        from by decide,
      show (distinctWords (String.intercalate " " ["a b"])).length = 2 from by decide]
  norm_num

/-- Every detailed result and every RAGAS answer produced by
prepare_enhanced_dataset has a non-empty answer. -/
theorem prepare_enhanced_dataset_answers (query : String → QueryResult)
    (questions : List QA) :
    ∀ (rd : RagasData) (dr : List DetailedResult),
      prepare_enhanced_dataset query questions = some (rd, dr) →
      (∀ r ∈ dr, r.answer ≠ "") ∧ (∀ a ∈ rd.answer, a ≠ "") := by
  induction questions with
  | nil =>
    intro rd dr h
    rw [prepare_enhanced_dataset] at h
    rw [Option.some_inj] at h
    injection h with h1 h2
    subst h1
    subst h2
    simp
  | cons qa rest ih =>
    intro rd dr h
    rw [prepare_enhanced_dataset] at h
    by_cases he : (query qa.question).answer = ""
    · rw [if_pos he] at h
      exact ih rd dr h
    · rw [if_neg he] at h
      cases hcm : calculate_custom_metrics qa.question (query qa.question).answer
          qa.ground_truth (query qa.question).contexts (query qa.question).response_time with
      | none =>
        rw [hcm] at h
        exact absurd h (by simp)
      | some cm =>
        cases hp : prepare_enhanced_dataset query rest with
        | none =>
          rw [hcm, hp] at h
          exact absurd h (by simp)
        | some pr =>
          obtain ⟨d, dr'⟩ := pr
          rw [hcm, hp] at h
          dsimp only at h
          rw [Option.some_inj] at h
          injection h with h1 h2
          subst h1
          subst h2
          obtain ⟨ihdr, ihrd⟩ := ih d dr' hp
          constructor
          · intro r hr
            rcases List.mem_cons.mp hr with rfl | hr
            · exact he
            · exact ihdr r hr
          · intro a ha
            rcases List.mem_cons.mp ha with rfl | ha
            · exact he
            · exact ihrd a ha

/-- Every answer kept by prepare_ragas_dataset is non-empty. -/
theorem prepare_ragas_dataset_answers (query : String → QueryResult)
    (questions : List QA) :
    ∀ a ∈ (prepare_ragas_dataset query questions).answer, a ≠ "" := by
  induction questions with
  | nil =>
    intro a ha
    rw [prepare_ragas_dataset] at ha
    simp at ha
  | cons qa rest ih =>
    intro a ha
    rw [prepare_ragas_dataset] at ha
    by_cases he : (query qa.question).answer = ""
    · rw [if_pos he] at ha
      exact ih a ha
    · rw [if_neg he] at ha
      rcases List.mem_cons.mp ha with rfl | ha
      · exact he
      · exact ih a ha

/-- C7: in both scripts, an item whose query returned an empty answer
is skipped before metric computation: every element of the detailed
result collection of prepare_enhanced_dataset has a non-empty answer
(so it cannot contribute to any aggregation denominator), every
answer kept for the RAGAS dataset is non-empty, and the same holds
for prepare_ragas_dataset. -/
theorem empty_answers_skipped (query : String → QueryResult) (questions : List QA)
    (rd : RagasData) (dr : List DetailedResult)
    (h : prepare_enhanced_dataset query questions = some (rd, dr)) :
    (∀ r ∈ dr, r.answer ≠ "") ∧ (∀ a ∈ rd.answer, a ≠ "") ∧
    (∀ a ∈ (prepare_ragas_dataset query questions).answer, a ≠ "") := by
  obtain ⟨h1, h2⟩ := prepare_enhanced_dataset_answers query questions rd dr h
  exact ⟨h1, h2, prepare_ragas_dataset_answers query questions⟩

/-- C7 witness: a two-question run where the first query fails with
an empty answer; only the second question survives. -/
theorem empty_answers_skipped_witness :
    (∀ r ∈ [wDetailed], r.answer ≠ "") ∧ (∀ a ∈ wRagas.answer, a ≠ "") ∧
    (∀ a ∈ (prepare_ragas_dataset wQuery wQuestions).answer, a ≠ "") :=
  empty_answers_skipped wQuery wQuestions wRagas [wDetailed] rfl

/-- When the per-metric value collection succeeds it has one value
per detailed result. -/
theorem metric_values_length (metric_name : String) :
    ∀ (rs : List DetailedResult) (vs : List ℚ),
      metric_values rs metric_name = some vs → vs.length = rs.length := by
  intro rs
  induction rs with
  | nil =>
    intro vs h
    rw [metric_values] at h
    rw [Option.some_inj] at h
    subst h
    rfl
  | cons r rest ih =>
    intro vs h
    rw [metric_values] at h
    cases hl : List.lookup metric_name r.custom_metrics with
    | none =>
      rw [hl] at h
      exact absurd h (by simp)
    | some v =>
      cases hm : metric_values rest metric_name with
      | none =>
        rw [hl, hm] at h
        exact absurd h (by simp)
      | some vs' =>
        rw [hl, hm] at h
        dsimp only at h
        rw [Option.some_inj] at h
        subst h
        simp [ih vs' hm]

/-- C6: for a non-empty detailed-result collection the aggregation
sets avg_<metric> to the arithmetic mean (sum divided by the number
of items) and std_<metric> to the population standard deviation (the
square of the stored value is the sum of squared deviations divided
by n, not n - 1); on the values 0.2, 0.4, 0.6 the mean is 0.4, the
population variance is 2/75, and the population standard deviation
lies strictly between 0.163 and 0.164. -/
theorem aggregation_mean_and_population_std (detailed_results : List DetailedResult)
    (h : detailed_results ≠ []) (metric_name : String) (values : List ℚ)
    (hv : metric_values detailed_results metric_name = some values) :
    custom_results_avg detailed_results metric_name =
      some (values.sum / (detailed_results.length : ℚ)) ∧
    custom_results_std_sq detailed_results metric_name =
      some ((values.map
              (fun x => (x - values.sum / (detailed_results.length : ℚ))^2)).sum /
            (detailed_results.length : ℚ)) ∧
    npMean [1/5, 2/5, 3/5] = 2/5 ∧
    npVar [1/5, 2/5, 3/5] = 2/75 ∧
    (163/1000 : ℝ) < Real.sqrt ((npVar [1/5, 2/5, 3/5] : ℚ) : ℝ) ∧
    Real.sqrt ((npVar [1/5, 2/5, 3/5] : ℚ) : ℝ) < (164/1000 : ℝ) := by
  have hlen := metric_values_length metric_name detailed_results values hv
  have hmean : npMean values = values.sum / (detailed_results.length : ℚ) := by
    unfold npMean
    rw [hlen]
  have hvar : npVar [1/5, 2/5, 3/5] = (2/75 : ℚ) := by
    unfold npVar npMean
    norm_num
  have hcast : ((npVar [1/5, 2/5, 3/5] : ℚ) : ℝ) = (2/75 : ℝ) := by
    rw [hvar]
    push_cast
    norm_num
  refine ⟨?_, ?_, ?_, hvar, ?_, ?_⟩
  · unfold custom_results_avg
    rw [hv]
    dsimp only [Option.map]
    rw [hmean]
  · unfold custom_results_std_sq
    rw [hv]
    dsimp only [Option.map]
    unfold npVar
    rw [hlen, hmean]
  · unfold npMean
    norm_num
  · rw [hcast, Real.lt_sqrt (by norm_num)]
    norm_num
  · rw [hcast, Real.sqrt_lt' (by norm_num)]
    norm_num

/-- C6 witness: three items with metric values 0.2, 0.4, 0.6 give
average 0.4 and squared population standard deviation 2/75. -/
theorem aggregation_mean_and_population_std_witness :
    custom_results_avg threeResults "m" = some (2/5) ∧
    custom_results_std_sq threeResults "m" = some (2/75) := by
  have h := aggregation_mean_and_population_std threeResults
    (by simp [threeResults]) "m" [1/5, 2/5, 3/5] rfl
  refine ⟨?_, ?_⟩
  · rw [h.1]
    norm_num [threeResults]
  · rw [h.2.1]
    norm_num [threeResults]

/-- C10: the grade-banding functions of the two scripts agree on
every score. -/
theorem grade_functions_agree (score : ℚ) :
    get_score_grade score = get_overall_grade score := rfl
